import Mathlib

/-!
# Verification of `punto_3.py` (Estudio del canal — Procesos estocásticos)

Shallow embedding of the single routine `animar_medias_tiempo` and of the three
experiment inputs of `src/Examen_2/Punto 3 – Estacionariedad y Filtros/punto_3.py`.

Numeric arrays are embedded as `List (List ℚ)` (rows = realizations); the
floating-point arithmetic of NumPy/SciPy is idealised as exact rational
arithmetic, matching the exact equalities stated by the specification.
-/

namespace Punto3

/-- A 2-D array (ensemble of realizations): a list of rows. -/
abbrev Matriz := List (List ℚ)

/-- Signal value at an integer index: `x[j]` with indices below `0`
(and beyond the end) read as `0`, the zero-initial-condition convention of
causal filtering. -/
def xval (x : List ℚ) (j : ℤ) : ℚ :=
  if j < 0 then 0 else x.getD j.toNat 0

/-- `scipy.signal.lfilter(coefs, [1], x)`: a pure FIR filter with numerator
coefficients `coefs` and denominator `[1]` (no feedback), i.e.
`y[n] = ∑ k, coefs[k] * x[n - k]` with out-of-range input samples read as `0`.
The output has the same length as the input. -/
def lfilter (coefs : List ℚ) (x : List ℚ) : List ℚ :=
  (List.range x.length).map fun (n : ℕ) =>
    ((List.range coefs.length).map fun (k : ℕ) =>
      coefs.getD k 0 * xval x ((n : ℤ) - (k : ℤ))).sum

/-- `b = [1, -1/a, 1/(2*a)]` — the FIR numerator coefficients of the script. -/
def b (a : ℚ) : List ℚ := [1, -1/a, 1/(2*a)]

/-- `y_fir = np.array([lfilter(b, [1], x[i]) for i in range(n_realizaciones)])`:
the FIR-filtered ensemble, one filtered row per realization index. -/
def y_fir (a : ℚ) (x : Matriz) (n_realizaciones : ℕ) : Matriz :=
  (List.range n_realizaciones).map fun i => lfilter (b a) (x.getD i [])

/-- `y_nl = x ** 2`: the nonlinear (square-law) system, elementwise square. -/
def y_nl (x : Matriz) : Matriz :=
  x.map fun fila => fila.map fun v => v ^ 2

/-- `np.mean` of a 1-D array: sum divided by length. -/
def media (l : List ℚ) : ℚ := l.sum / l.length

/-- `y[:, t]`: the column of a 2-D array at time index `t`
(one entry per realization). -/
def columna (m : Matriz) (t : ℕ) : List ℚ :=
  m.map fun fila => fila.getD t 0

/-- The content of one of the two text artists after a frame update:
`txt.set_text(f"... μ(t1={t1})={m1:.3f}, μ(t2={t2})={m2:.3f}, diferencia={d:.3f}")`.
`decimales` records the `.3f` format width; the numeric fields hold the exact
values the format specifier is applied to. -/
structure TextoMedia where
  t1 : ℕ
  t2 : ℕ
  mu_t1 : ℚ
  mu_t2 : ℚ
  diferencia : ℚ
  decimales : ℕ
deriving DecidableEq

/-- The mutable plot state touched by `update`: the x-positions of the four
vertical marker lines and the two text artists (initially empty, `none`). -/
structure EstadoAnim where
  vline1_fir : ℕ
  vline2_fir : ℕ
  vline1_nl : ℕ
  vline2_nl : ℕ
  txt1 : Option TextoMedia
  txt2 : Option TextoMedia
deriving DecidableEq

/-- Plot state at figure creation: all four `axvline(0, ...)` markers at `0`,
both texts set to the empty string. -/
def estadoInicial : EstadoAnim := ⟨0, 0, 0, 0, none, none⟩

/-- The artists the `update` callback returns for blitting. -/
inductive Artista where
  | fir_line (i : ℕ)
  | nl_line (i : ℕ)
  | vline1_fir
  | vline2_fir
  | vline1_nl
  | vline2_nl
  | txt1
  | txt2
deriving DecidableEq

/-- `fir_lines + nl_lines + [vline1_fir, vline2_fir, vline1_nl, vline2_nl, txt1, txt2]`:
the list returned by `update` on a non-skipped frame (the per-panel line lists
hold the first `min(n_realizaciones, 10)` realizations). -/
def artistas (n_realizaciones : ℕ) : List Artista :=
  ((List.range (min n_realizaciones 10)).map .fir_line) ++
  ((List.range (min n_realizaciones 10)).map .nl_line) ++
  [.vline1_fir, .vline2_fir, .vline1_nl, .vline2_nl, .txt1, .txt2]

/-- The per-frame callback `update(frame)`: sets `t1 = frame`, `t2 = frame + tau`;
if `t2 >= 1000` it returns `[]` without touching any artist; otherwise it
computes the four cross-realization means, moves the four vertical markers to
`t1`/`t2`, rewrites both texts (means and absolute difference, `.3f` format)
and returns the full artist list. -/
def update (n_realizaciones tau : ℕ) (yf ynl : Matriz) (s : EstadoAnim)
    (frame : ℕ) : EstadoAnim × List Artista :=
  let t1 := frame
  let t2 := frame + tau
  if 1000 ≤ t2 then (s, [])
  else
    let media_fir_t1 := media (columna yf t1)
    let media_fir_t2 := media (columna yf t2)
    let media_nl_t1 := media (columna ynl t1)
    let media_nl_t2 := media (columna ynl t2)
    ({ vline1_fir := t1, vline2_fir := t2, vline1_nl := t1, vline2_nl := t2,
       txt1 := some ⟨t1, t2, media_fir_t1, media_fir_t2,
                     |media_fir_t2 - media_fir_t1|, 3⟩,
       txt2 := some ⟨t1, t2, media_nl_t1, media_nl_t2,
                     |media_nl_t2 - media_nl_t1|, 3⟩ },
     artistas n_realizaciones)

/-- Python `range(start, stop, step)` for a positive step: the increasing list
`start, start + step, …` of all such values below `stop`. -/
def pythonRange (start stop step : ℕ) : List ℕ :=
  (List.range ((stop - start + step - 1) / step)).map fun k => start + step * k

/-- The frame driver built by
`FuncAnimation(fig, update, frames=range(0, 1000 - tau, 10), interval=200, blit=True)`. -/
structure ConfigAnim where
  frames : List ℕ
  interval : ℕ
  blit : Bool
deriving DecidableEq

/-- The `FuncAnimation` configuration of the script for a given `tau`. -/
def animacion (tau : ℕ) : ConfigAnim :=
  { frames := pythonRange 0 (1000 - tau) 10, interval := 200, blit := true }

/-- The spec's description of the frame sequence, written from its words:
"the multiples of 10 starting at 0 up to the largest multiple of 10 strictly
less than 1000 − tau", i.e. `{0, 10, 20, …} ∩ [0, 1000 − tau)` in increasing
order. Used only to be compared with `animacion` (refinement). -/
def framesSegunSpec (tau : ℕ) : List ℕ :=
  (List.range (1000 - tau)).filter fun n => n % 10 = 0

/-- The array store of one call to `animar_medias_tiempo`. The input ensemble
`x` is a parameter array; `y_fir` and `y_nl` start unallocated (`none`) and
are bound when the processing step runs. An in-place write into `x` would be
modelled as updating the `x` field; every NumPy/SciPy operation the routine
performs (`lfilter`, `x ** 2`, `np.array`, `np.mean`, slicing) allocates a
fresh array or only reads, so none of the embedded steps does so. -/
structure Almacen where
  x : Matriz
  y_fir : Option Matriz
  y_nl : Option Matriz
deriving DecidableEq

/-- The deterministic processing step run once before the animation starts:
`y_fir = np.array([lfilter(b, [1], x[i]) ...])` then `y_nl = x ** 2`.
Both right-hand sides are fresh arrays computed from reads of `x`. -/
def procesamiento (a : ℚ) (n_realizaciones : ℕ) (s : Almacen) : Almacen :=
  let s1 := { s with y_fir := some (y_fir a s.x n_realizaciones) }
  { s1 with y_nl := some (y_nl s1.x) }

/-- One call `animar_medias_tiempo(x, n_realizaciones, a, tau)`: build the two
processed ensembles, then drive `update` over the whole frame sequence of the
animation, starting from the freshly drawn figure. Returns the final array
store and the final plot state. -/
def animar_medias_tiempo (x : Matriz) (n_realizaciones : ℕ) (a : ℚ) (tau : ℕ) :
    Almacen × EstadoAnim :=
  let s1 := procesamiento a n_realizaciones ⟨x, none, none⟩
  (s1,
   (animacion tau).frames.foldl
     (fun st f =>
       (update n_realizaciones tau (s1.y_fir.getD []) (s1.y_nl.getD []) st f).1)
     estadoInicial)

/-- Distributional description of one call `np.random.normal(loc, scale, size)`:
`size` independent Gaussian draws with mean `loc` and **standard deviation**
`scale` (NumPy's `scale` parameter is the standard deviation, not the
variance). -/
structure EspecNormal where
  loc : ℚ
  scale : ℚ
  size : ℕ
deriving DecidableEq

/-- The variance of a draw described by `EspecNormal`: the square of NumPy's
`scale` (= standard deviation) parameter. -/
def EspecNormal.varianza (e : EspecNormal) : ℚ := e.scale ^ 2

/-- The standard deviation of a draw described by `EspecNormal`. -/
def EspecNormal.desviacion (e : EspecNormal) : ℚ := e.scale

/-- `n_realizaciones = 3000`. -/
def n_realizaciones : ℕ := 3000

/-- Row `t` of the non-stationary-channel ensemble:
`np.random.normal(0, 0.5 + 0.01 * t, 1000)`, a length-1000 draw with mean `0`
and scale (standard deviation) `0.5 + 0.01 * t`, a scalar — constant along the
1000-sample time axis of the row. -/
def x_variante_fila (t : ℕ) : EspecNormal :=
  ⟨0, 1/2 + (t : ℚ) / 100, 1000⟩

/-- `x_variante = np.array([np.random.normal(0, 0.5 + 0.01 * t, 1000) for t in
range(n_realizaciones)])`, described distributionally row by row. -/
def x_variante : List EspecNormal :=
  (List.range n_realizaciones).map x_variante_fila

/-- The example row `[1, 2, 3, 4, …]` (length 1000) used by the spec's hand
check of the FIR output. -/
def fila_ejemplo : List ℚ :=
  (List.range 1000).map fun (k : ℕ) => (k : ℚ) + 1

end Punto3

namespace Punto3

/-! ## Helper lemmas -/

/-- `getD` of a mapped range at an in-range index. -/
theorem getD_map_range {α : Type} (f : ℕ → α) (d : α) {i n : ℕ} (h : i < n) :
    ((List.range n).map f).getD i d = f i := by
  rw [List.getD_eq_getElem _ _ (by simpa using h)]
  simp

/-- In an ensemble of shape `(R, 1000)`, every in-range row read with `getD`
has length `1000`. -/
theorem fila_length {x : Matriz} {R : ℕ} (hR : x.length = R)
    (hx : ∀ fila ∈ x, fila.length = 1000) {i : ℕ} (hi : i < R) :
    (x.getD i []).length = 1000 := by
  have hi' : i < x.length := by omega
  rw [List.getD_eq_getElem _ _ hi']
  exact hx _ (List.getElem_mem hi')

/-- Every frame produced by the `FuncAnimation` frame sequence satisfies
`f + tau < 1000`. -/
theorem mem_frames {tau f : ℕ} (hf : f ∈ (animacion tau).frames) :
    f + tau < 1000 := by
  simp only [animacion, pythonRange, List.mem_map, List.mem_range] at hf
  obtain ⟨k, hk, rfl⟩ := hf
  omega

/-- The multiples of `10` below `m`, listed in increasing order, are exactly
Python's `range(0, m, 10)`. -/
theorem filter_mod10_range (m : ℕ) :
    (List.range m).filter (fun n => n % 10 = 0)
      = (List.range ((m + 9) / 10)).map (fun k => 10 * k) := by
  induction m with
  | zero => rfl
  | succ m ih =>
    rw [List.range_succ, List.filter_append, ih]
    by_cases h : m % 10 = 0
    · have h1 : (m + 1 + 9) / 10 = (m + 9) / 10 + 1 := by omega
      have h2 : 10 * ((m + 9) / 10) = m := by omega
      rw [h1, List.range_succ, List.map_append]
      simp [h, h2]
    · have h1 : (m + 1 + 9) / 10 = (m + 9) / 10 := by omega
      rw [h1]
      simp [h]

/-- The animation's frame list coincides with the spec's description of it. -/
theorem frames_eq_spec (tau : ℕ) :
    (animacion tau).frames = framesSegunSpec tau := by
  have hc : (1000 - tau - 0 + 10 - 1) / 10 = (1000 - tau + 9) / 10 := by omega
  simp only [animacion, pythonRange, framesSegunSpec, filter_mod10_range, hc]
  exact List.map_congr_left fun k _ => by omega

/-- The frame list is strictly increasing. -/
theorem frames_sorted (tau : ℕ) :
    List.Pairwise (· < ·) (animacion tau).frames := by
  simp only [animacion, pythonRange]
  exact (List.pairwise_lt_range _).map _ (fun a b h => by omega)

end Punto3


namespace Punto3

/-! ## Claims -/

set_option maxRecDepth 4000 in
/-- Length of the example row. -/
theorem fila_ejemplo_length : fila_ejemplo.length = 1000 := by
  simp only [fila_ejemplo, List.length_map, List.length_range]

/-- The singleton ensemble `[fila_ejemplo]` has rows of length `1000`. -/
theorem fila_ejemplo_shape : ∀ fila ∈ ([fila_ejemplo] : Matriz), fila.length = 1000 := by
  intro fila hf
  rw [List.mem_singleton] at hf
  rw [hf]
  exact fila_ejemplo_length

/-- In-range values of the example row: sample `j` is `j + 1`. -/
theorem fila_ejemplo_val {j : ℕ} (hj : j < 1000) :
    fila_ejemplo.getD j 0 = (j : ℚ) + 1 :=
  getD_map_range _ _ hj

/-- **C1.** For every ensemble `x` of shape `(R, 1000)` and every `a ≠ 0`, the
FIR processing step produces, at every row `i < R` and sample `n < 1000`, the
value `x[i][n] − x[i][n−1]/a + x[i][n−2]/(2a)` with indices below `0` read as
`0`; and on the row `[1, 2, 3, 4, …]` with `a = 2` the first three output
samples are `1`, `1.5` and `2.25`. -/
theorem C1_fir_formula (a : ℚ) (x : Matriz) (R : ℕ) (ha : a ≠ 0)
    (hR : x.length = R) (hx : ∀ fila ∈ x, fila.length = 1000) :
    (∀ i < R, ∀ n < 1000,
      ((y_fir a x R).getD i []).getD n 0 =
        xval (x.getD i []) n - xval (x.getD i []) ((n : ℤ) - 1) / a
          + xval (x.getD i []) ((n : ℤ) - 2) / (2 * a)) ∧
    ((y_fir 2 [fila_ejemplo] 1).getD 0 []).getD 0 0 = 1 ∧
    ((y_fir 2 [fila_ejemplo] 1).getD 0 []).getD 1 0 = 3/2 ∧
    ((y_fir 2 [fila_ejemplo] 1).getD 0 []).getD 2 0 = 9/4 := by
  have general : ∀ (a : ℚ) (x : Matriz) (R : ℕ), x.length = R →
      (∀ fila ∈ x, fila.length = 1000) → ∀ i < R, ∀ n < 1000,
      ((y_fir a x R).getD i []).getD n 0 =
        xval (x.getD i []) n - xval (x.getD i []) ((n : ℤ) - 1) / a
          + xval (x.getD i []) ((n : ℤ) - 2) / (2 * a) := by
    intro a x R hR hx i hi n hn
    rw [y_fir, getD_map_range _ _ hi, lfilter]
    have hlen : (x.getD i []).length = 1000 := fila_length hR hx hi
    rw [getD_map_range _ _ (by omega : n < (x.getD i []).length)]
    rw [show List.range (b a).length = [0, 1, 2] from rfl]
    simp only [List.map_cons, List.map_nil, List.sum_cons, List.sum_nil, b,
      List.getD_cons_zero, List.getD_cons_succ, Nat.cast_zero, Nat.cast_one,
      Nat.cast_ofNat, sub_zero]
    ring
  have v0 : xval fila_ejemplo 0 = 1 := by
    rw [xval, if_neg (by norm_num)]
    show fila_ejemplo.getD 0 0 = 1
    rw [fila_ejemplo_val (by norm_num)]
    norm_num
  have v1 : xval fila_ejemplo 1 = 2 := by
    rw [xval, if_neg (by norm_num)]
    show fila_ejemplo.getD 1 0 = 2
    rw [fila_ejemplo_val (by norm_num)]
    norm_num
  have v2 : xval fila_ejemplo 2 = 3 := by
    rw [xval, if_neg (by norm_num)]
    show fila_ejemplo.getD 2 0 = 3
    rw [fila_ejemplo_val (by norm_num)]
    norm_num
  have vm1 : xval fila_ejemplo (-1) = 0 := by
    rw [xval, if_pos (by norm_num)]
  have vm2 : xval fila_ejemplo (-2) = 0 := by
    rw [xval, if_pos (by norm_num)]
  have key : ∀ n < 1000,
      ((y_fir 2 [fila_ejemplo] 1).getD 0 []).getD n 0 =
        xval fila_ejemplo n - xval fila_ejemplo ((n : ℤ) - 1) / 2
          + xval fila_ejemplo ((n : ℤ) - 2) / (2 * 2) := by
    intro n hn
    have h := general 2 [fila_ejemplo] 1 rfl fila_ejemplo_shape 0 (by norm_num) n hn
    simpa using h
  refine ⟨general a x R hR hx, ?_, ?_, ?_⟩
  · rw [key 0 (by norm_num)]
    norm_num [v0, vm1, vm2]
  · rw [key 1 (by norm_num)]
    norm_num [v0, v1, vm1]
  · rw [key 2 (by norm_num)]
    norm_num [v0, v1, v2]

/-- **C1 witness**: instance of the formula at `a = 2`, `x = [fila_ejemplo]`,
`R = 1`, `i = 0`, `n = 1`. -/
theorem C1_fir_formula_witness :
    ((2 : ℚ) ≠ 0) ∧ ([fila_ejemplo] : Matriz).length = 1 ∧ (0 < 1) ∧ (1 < 1000) ∧
    ((y_fir 2 [fila_ejemplo] 1).getD 0 []).getD 1 0 =
      xval (([fila_ejemplo] : Matriz).getD 0 []) 1
        - xval (([fila_ejemplo] : Matriz).getD 0 []) ((1 : ℤ) - 1) / 2
        + xval (([fila_ejemplo] : Matriz).getD 0 []) ((1 : ℤ) - 2) / (2 * 2) :=
  ⟨by norm_num, rfl, by decide, by decide,
   (C1_fir_formula 2 [fila_ejemplo] 1 (by norm_num) rfl fila_ejemplo_shape).1
     0 (by decide) 1 (by decide)⟩

/-- `getD` commutes with the elementwise square, with default `0`. -/
theorem getD_map_sq (fila : List ℚ) (n : ℕ) :
    (fila.map fun v => v ^ 2).getD n 0 = (fila.getD n 0) ^ 2 := by
  by_cases h : n < fila.length
  · rw [List.getD_eq_getElem _ _ (by simpa using h), List.getD_eq_getElem _ _ h]
    simp
  · rw [List.getD_eq_default _ _ (by simpa using not_lt.mp h),
        List.getD_eq_default _ _ (not_lt.mp h)]
    norm_num

/-- **C2.** The nonlinear processing step is exactly the elementwise square:
every entry of `y_nl x` is the square of the corresponding entry of `x`
(out-of-range reads default to `0` on both sides), and the row `[−2, 0, 3]`
maps to `[4, 0, 9]`. -/
theorem C2_cuadrado (x : Matriz) :
    (∀ i n, ((y_nl x).getD i []).getD n 0 = ((x.getD i []).getD n 0) ^ 2) ∧
    y_nl [[-2, 0, 3]] = [[4, 0, 9]] := by
  constructor
  · intro i n
    by_cases h : i < x.length
    · have h1 : (y_nl x).getD i [] = (x.getD i []).map fun v => v ^ 2 := by
        rw [y_nl, List.getD_eq_getElem _ _ (by simpa using h),
            List.getD_eq_getElem _ _ h]
        simp
      rw [h1, getD_map_sq]
    · have h1 : (y_nl x).getD i [] = [] :=
        List.getD_eq_default _ _ (by simp [y_nl]; omega)
      have h2 : x.getD i [] = [] :=
        List.getD_eq_default _ _ (not_lt.mp h)
      rw [h1, h2]
      norm_num
  · norm_num [y_nl]

/-- **C3.** For every frame `f` with `f + tau < 1000`, the per-frame update
sets `t1 = f` and `t2 = f + tau`, moves the four vertical markers to `t1`/`t2`,
and writes text annotations reporting the cross-realization means of the
FIR-filtered ensemble (top) and of the squared ensemble (bottom) at columns
`t1` and `t2`, together with the absolute difference, with `.3f` formatting. -/
theorem C3_actualizacion (a : ℚ) (x : Matriz) (nR tau frame : ℕ)
    (s : EstadoAnim) (h : frame + tau < 1000) :
    (update nR tau (y_fir a x nR) (y_nl x) s frame).1 =
      { vline1_fir := frame, vline2_fir := frame + tau,
        vline1_nl := frame, vline2_nl := frame + tau,
        txt1 := some ⟨frame, frame + tau,
                      media (columna (y_fir a x nR) frame),
                      media (columna (y_fir a x nR) (frame + tau)),
                      |media (columna (y_fir a x nR) (frame + tau))
                        - media (columna (y_fir a x nR) frame)|, 3⟩,
        txt2 := some ⟨frame, frame + tau,
                      media (columna (y_nl x) frame),
                      media (columna (y_nl x) (frame + tau)),
                      |media (columna (y_nl x) (frame + tau))
                        - media (columna (y_nl x) frame)|, 3⟩ } := by
  simp only [update]
  rw [if_neg (by omega : ¬ 1000 ≤ frame + tau)]

/-- **C3 witness**: the update at `a = 2`, `x = [fila_ejemplo]`, `nR = 1`,
`tau = 100`, `frame = 0`, from the initial plot state. -/
theorem C3_actualizacion_witness :
    (0 + 100 < 1000) ∧
    (update 1 100 (y_fir 2 [fila_ejemplo] 1) (y_nl [fila_ejemplo])
        estadoInicial 0).1 =
      { vline1_fir := 0, vline2_fir := 0 + 100,
        vline1_nl := 0, vline2_nl := 0 + 100,
        txt1 := some ⟨0, 0 + 100,
                      media (columna (y_fir 2 [fila_ejemplo] 1) 0),
                      media (columna (y_fir 2 [fila_ejemplo] 1) (0 + 100)),
                      |media (columna (y_fir 2 [fila_ejemplo] 1) (0 + 100))
                        - media (columna (y_fir 2 [fila_ejemplo] 1) 0)|, 3⟩,
        txt2 := some ⟨0, 0 + 100,
                      media (columna (y_nl [fila_ejemplo]) 0),
                      media (columna (y_nl [fila_ejemplo]) (0 + 100)),
                      |media (columna (y_nl [fila_ejemplo]) (0 + 100))
                        - media (columna (y_nl [fila_ejemplo]) 0)|, 3⟩ } :=
  ⟨by decide, C3_actualizacion 2 [fila_ejemplo] 1 100 0 estadoInicial (by decide)⟩

/-- **C4.** For every frame `f` with `f + tau ≥ 1000`, the per-frame update
returns no artists and leaves the whole plot state unchanged: the frame is a
no-op. -/
theorem C4_cuadro_omitido (nR tau frame : ℕ) (yf ynl : Matriz)
    (s : EstadoAnim) (h : 1000 ≤ frame + tau) :
    update nR tau yf ynl s frame = (s, []) := by
  simp only [update]
  rw [if_pos h]

/-- **C4 witness**: the skipped frame `950` with `tau = 100`. -/
theorem C4_cuadro_omitido_witness :
    (1000 ≤ 950 + 100) ∧
    update 1 100 [] [] estadoInicial 950 = (estadoInicial, []) :=
  ⟨by decide, C4_cuadro_omitido 1 100 950 [] [] estadoInicial (by decide)⟩

/-- **C5.** For every `tau`, the animation frame sequence is exactly the
multiples of 10 in `[0, 1000 − tau)` in increasing order, and the configured
interval between frames is 200. -/
theorem C5_secuencia_cuadros (tau : ℕ) :
    (animacion tau).frames = framesSegunSpec tau ∧
    List.Pairwise (· < ·) (animacion tau).frames ∧
    (animacion tau).interval = 200 :=
  ⟨frames_eq_spec tau, frames_sorted tau, rfl⟩

/-- **C6.** At every frame of the animation (every member of the generated
frame sequence), the updated state satisfies `t2 = t1 + tau`: both pairs of
vertical markers and both text annotations keep their two time indices exactly
`tau` apart. -/
theorem C6_invariante_tau (tau f : ℕ) (hf : f ∈ (animacion tau).frames)
    (nR : ℕ) (yf ynl : Matriz) (s : EstadoAnim) :
    (update nR tau yf ynl s f).1.vline2_fir
        = (update nR tau yf ynl s f).1.vline1_fir + tau ∧
    (update nR tau yf ynl s f).1.vline2_nl
        = (update nR tau yf ynl s f).1.vline1_nl + tau ∧
    (∀ ta, (update nR tau yf ynl s f).1.txt1 = some ta → ta.t2 = ta.t1 + tau) ∧
    (∀ ta, (update nR tau yf ynl s f).1.txt2 = some ta → ta.t2 = ta.t1 + tau) := by
  have h := mem_frames hf
  simp only [update]
  rw [if_neg (by omega : ¬ 1000 ≤ f + tau)]
  refine ⟨rfl, rfl, fun ta hta => ?_, fun ta hta => ?_⟩ <;>
    rw [← Option.some_inj.mp hta]

/-- **C6 witness**: frame `0` of the animation with `tau = 100`. -/
theorem C6_invariante_tau_witness :
    (0 ∈ (animacion 100).frames) ∧
    ((update 1 100 [] [] estadoInicial 0).1.vline2_fir
        = (update 1 100 [] [] estadoInicial 0).1.vline1_fir + 100 ∧
     (update 1 100 [] [] estadoInicial 0).1.vline2_nl
        = (update 1 100 [] [] estadoInicial 0).1.vline1_nl + 100 ∧
     (∀ ta, (update 1 100 [] [] estadoInicial 0).1.txt1 = some ta →
        ta.t2 = ta.t1 + 100) ∧
     (∀ ta, (update 1 100 [] [] estadoInicial 0).1.txt2 = some ta →
        ta.t2 = ta.t1 + 100)) :=
  ⟨by decide, C6_invariante_tau 100 0 (by decide) 1 [] [] estadoInicial⟩

/-- **C7.** The animator consumes the ensemble read-only: after one full call,
the store holds the input `x` unchanged, with the FIR output and the squared
output bound as separate fresh arrays. -/
theorem C7_solo_lectura (x : Matriz) (nR : ℕ) (a : ℚ) (tau : ℕ) :
    (animar_medias_tiempo x nR a tau).1 =
      ⟨x, some (y_fir a x nR), some (y_nl x)⟩ :=
  rfl

/-- **C8.** For every input ensemble of shape `(R, 1000)` (with the matching
realization count), both processed ensembles preserve that shape. -/
theorem C8_forma (a : ℚ) (x : Matriz) (R : ℕ) (hR : x.length = R)
    (hx : ∀ fila ∈ x, fila.length = 1000) :
    (y_fir a x R).length = R ∧ (∀ fila ∈ y_fir a x R, fila.length = 1000) ∧
    (y_nl x).length = R ∧ (∀ fila ∈ y_nl x, fila.length = 1000) := by
  refine ⟨by simp [y_fir], ?_, by simp [y_nl, hR], ?_⟩
  · intro fila hf
    simp only [y_fir, List.mem_map, List.mem_range] at hf
    obtain ⟨i, hi, hfe⟩ := hf
    rw [← hfe]
    simp only [lfilter, List.length_map, List.length_range]
    exact fila_length hR hx hi
  · intro fila hf
    simp only [y_nl, List.mem_map] at hf
    obtain ⟨g, hg, hfe⟩ := hf
    rw [← hfe]
    simp [hx g hg]

/-- **C8 witness**: the singleton ensemble `[fila_ejemplo]` with `R = 1`,
`a = 2`. -/
theorem C8_forma_witness :
    ([fila_ejemplo] : Matriz).length = 1 ∧
    ((y_fir 2 [fila_ejemplo] 1).length = 1 ∧
     (∀ fila ∈ y_fir 2 [fila_ejemplo] 1, fila.length = 1000) ∧
     (y_nl [fila_ejemplo]).length = 1 ∧
     (∀ fila ∈ y_nl [fila_ejemplo], fila.length = 1000)) :=
  ⟨rfl, C8_forma 2 [fila_ejemplo] 1 rfl fila_ejemplo_shape⟩

/-- Row `t` of `x_variante`, read from the distributional description. -/
theorem x_variante_fila_eq {t : ℕ} (ht : t < 3000) :
    x_variante.getD t ⟨0, 0, 0⟩ = x_variante_fila t := by
  rw [x_variante]
  exact getD_map_range _ _ (by simpa [n_realizaciones] using ht)

/-- **C9 counterexample.** The claim — row `t` of the non-stationary ensemble
has *variance* `0.5 + 0.01·t` — already fails at `t = 0`: the code passes
`0.5 + 0.01·t` as NumPy's `scale` (standard deviation), so the variance at
`t = 0` is `0.25`, not `0.5`. -/
theorem C9_contraejemplo :
    ¬ ((x_variante.getD 0 ⟨0, 0, 0⟩).loc = 0 ∧
       (x_variante.getD 0 ⟨0, 0, 0⟩).size = 1000 ∧
       (x_variante.getD 0 ⟨0, 0, 0⟩).varianza = 1/2 + ((0 : ℕ) : ℚ) / 100) := by
  intro h
  have hv := h.2.2
  rw [x_variante_fila_eq (by norm_num)] at hv
  norm_num [x_variante_fila, EspecNormal.varianza] at hv

/-- **C9 (amended).** For every realization index `t < 3000`, row `t` of the
non-stationary ensemble is a length-1000 draw from a zero-mean Gaussian whose
**standard deviation** (NumPy `scale`) is `0.5 + 0.01·t` — hence variance
`(0.5 + 0.01·t)²` — with the spread parameter a scalar, constant along the
1000-sample time axis of the row. -/
theorem C9_canal_no_estacionario (t : ℕ) (ht : t < 3000) :
    x_variante.getD t ⟨0, 0, 0⟩ = x_variante_fila t ∧
    (x_variante_fila t).loc = 0 ∧
    (x_variante_fila t).size = 1000 ∧
    (x_variante_fila t).desviacion = 1/2 + (t : ℚ) / 100 ∧
    (x_variante_fila t).varianza = (1/2 + (t : ℚ) / 100) ^ 2 :=
  ⟨x_variante_fila_eq ht, rfl, rfl, rfl, rfl⟩

/-- **C9 witness**: realization index `t = 7`. -/
theorem C9_canal_no_estacionario_witness :
    (7 < 3000) ∧
    (x_variante.getD 7 ⟨0, 0, 0⟩ = x_variante_fila 7 ∧
     (x_variante_fila 7).loc = 0 ∧
     (x_variante_fila 7).size = 1000 ∧
     (x_variante_fila 7).desviacion = 1/2 + ((7 : ℕ) : ℚ) / 100 ∧
     (x_variante_fila 7).varianza = (1/2 + ((7 : ℕ) : ℚ) / 100) ^ 2) :=
  ⟨by decide, C9_canal_no_estacionario 7 (by decide)⟩

/-- **C10.** For `0 < tau < 1000`, every frame the animation actually
generates satisfies `f + tau < 1000`, so the early-exit skip branch of
`update` is never taken during a run: on every generated frame, `update`
returns the full (nonempty) artist list. -/
theorem C10_salto_inalcanzable (tau f : ℕ) (h1 : 0 < tau) (h2 : tau < 1000)
    (hf : f ∈ (animacion tau).frames) :
    f + tau < 1000 ∧
    ∀ (nR : ℕ) (yf ynl : Matriz) (s : EstadoAnim),
      (update nR tau yf ynl s f).2 = artistas nR ∧
      (update nR tau yf ynl s f).2 ≠ [] := by
  have h := mem_frames hf
  refine ⟨h, fun nR yf ynl s => ?_⟩
  have hupd : (update nR tau yf ynl s f).2 = artistas nR := by
    simp only [update]
    rw [if_neg (by omega : ¬ 1000 ≤ f + tau)]
  refine ⟨hupd, ?_⟩
  rw [hupd]
  simp [artistas]

/-- **C10 witness**: `tau = 100`, frame `0`, instantiated at `nR = 1`. -/
theorem C10_salto_inalcanzable_witness :
    (0 < 100) ∧ (100 < 1000) ∧ (0 ∈ (animacion 100).frames) ∧
    (0 + 100 < 1000) ∧
    ((update 1 100 [] [] estadoInicial 0).2 = artistas 1 ∧
     (update 1 100 [] [] estadoInicial 0).2 ≠ []) :=
  ⟨by decide, by decide, by decide,
   (C10_salto_inalcanzable 100 0 (by decide) (by decide) (by decide)).1,
   (C10_salto_inalcanzable 100 0 (by decide) (by decide) (by decide)).2
     1 [] [] estadoInicial⟩

end Punto3
